import Mathlib

/-!
Verification of the double-pendulum simulation (`doublependulumsimulation.py`).

The physical core of the program is embedded over the reals:
`DoublePendulum.__init__` stores the five physical parameters,
`DoublePendulum.derivatives` computes the vector field of the equations of
motion, `DoublePendulum.solve` builds the uniform sample grid with
`np.arange` and hands it to `scipy.integrate.odeint`, and `create_animation`
projects angular states to Cartesian bob coordinates.  `np.arange` is
translated from its documented semantics over the reals; `odeint` is an
external library routine and is modelled abstractly from the specification
as a per-sample-time integrator.
-/

namespace DoublePendulumSim

/-- The physical parameters stored by `DoublePendulum.__init__`:
arm lengths `L1, L2`, bob masses `m1, m2`, gravitational acceleration `g`.
The source constructor assigns the five attributes verbatim and performs no
validation of any kind. -/
structure DoublePendulum where
  L1 : ℝ
  L2 : ℝ
  m1 : ℝ
  m2 : ℝ
  g : ℝ

/-- A system state `[theta1, omega1, theta2, omega2]`, as in the source. -/
abbrev State := ℝ × ℝ × ℝ × ℝ

/-- `DoublePendulum.__init__(L1, L2, m1, m2, g)`: stores the parameters
verbatim.  There is no validation in the source: every real input is
accepted and construction always succeeds. -/
def DoublePendulum.init (L1 L2 m1 m2 g : ℝ) : DoublePendulum :=
  ⟨L1, L2, m1, m2, g⟩

/-- The first denominator `den1 = (m1+m2)*L1 - m2*L1*cos(delta)*cos(delta)`
computed inside `DoublePendulum.derivatives`, with `delta = theta2 - theta1`. -/
noncomputable def den1 (p : DoublePendulum) (s : State) : ℝ :=
  (p.m1 + p.m2) * p.L1
    - p.m2 * p.L1 * Real.cos (s.2.2.1 - s.1) * Real.cos (s.2.2.1 - s.1)

/-- The second denominator `den2 = (L2/L1) * den1` computed inside
`DoublePendulum.derivatives`. -/
noncomputable def den2 (p : DoublePendulum) (s : State) : ℝ :=
  (p.L2 / p.L1) * den1 p s

/-- `DoublePendulum.derivatives(state, t)`: the vector field of the double
pendulum, transcribed line by line from the source.  The time argument `t`
is accepted (for the `odeint` interface) but never used.  The source
performs the two divisions unconditionally: there is no check on the
magnitude of `den1` or `den2`. -/
noncomputable def derivatives (p : DoublePendulum) (state : State) (t : ℝ) :
    State :=
  let theta1 := state.1
  let omega1 := state.2.1
  let theta2 := state.2.2.1
  let omega2 := state.2.2.2
  let delta := theta2 - theta1
  (omega1,
   (p.m2 * p.L1 * omega1 * omega1 * Real.sin delta * Real.cos delta
      + p.m2 * p.g * Real.sin theta2 * Real.cos delta
      + p.m2 * p.L2 * omega2 * omega2 * Real.sin delta
      - (p.m1 + p.m2) * p.g * Real.sin theta1) / den1 p state,
   omega2,
   (-p.m2 * p.L2 * omega2 * omega2 * Real.sin delta * Real.cos delta
      + (p.m1 + p.m2) * p.g * Real.sin theta1 * Real.cos delta
      - (p.m1 + p.m2) * p.L1 * omega1 * omega1 * Real.sin delta
      - (p.m1 + p.m2) * p.g * Real.sin theta2) / den2 p state)

/-- The field equations exactly as displayed in the specification (section
4.1), with `cos(delta)^2` and squared angular velocities.  Written from the
spec text, to be compared with the source transcription `derivatives`. -/
noncomputable def derivativesSpec (p : DoublePendulum) (s : State) : State :=
  let theta1 := s.1
  let omega1 := s.2.1
  let theta2 := s.2.2.1
  let omega2 := s.2.2.2
  let delta := theta2 - theta1
  let d1 := (p.m1 + p.m2) * p.L1 - p.m2 * p.L1 * Real.cos delta ^ 2
  let d2 := (p.L2 / p.L1) * d1
  (omega1,
   (p.m2 * p.L1 * omega1 ^ 2 * Real.sin delta * Real.cos delta
      + p.m2 * p.g * Real.sin theta2 * Real.cos delta
      + p.m2 * p.L2 * omega2 ^ 2 * Real.sin delta
      - (p.m1 + p.m2) * p.g * Real.sin theta1) / d1,
   omega2,
   (-(p.m2 * p.L2 * omega2 ^ 2 * Real.sin delta * Real.cos delta)
      + (p.m1 + p.m2) * p.g * Real.sin theta1 * Real.cos delta
      - (p.m1 + p.m2) * p.L1 * omega1 ^ 2 * Real.sin delta
      - (p.m1 + p.m2) * p.g * Real.sin theta2) / d2)

/-- Modelled from the spec: the constructor contract of section 6 — the
source contains no such guard — "fails with InvalidParameter if any length
or mass ≤ 0 or g ≤ 0", rendered as an `Option`-valued checked constructor
that rejects invalid parameters with `none`. -/
noncomputable def initSpec (L1 L2 m1 m2 g : ℝ) : Option DoublePendulum :=
  if 0 < L1 ∧ 0 < L2 ∧ 0 < m1 ∧ 0 < m2 ∧ 0 < g then
    some ⟨L1, L2, m1, m2, g⟩
  else
    none

/-- Modelled from the spec: the numerical-instability policy of sections 4.1
and 7 — the source contains no such guard — "when |den1| or |den2| falls
below a small epsilon ... surface this as a numerical-instability condition
to the caller", rendered as an `Option`-valued checked derivative that
aborts with `none` at the point of detection. -/
noncomputable def derivativesChecked (eps : ℝ) (p : DoublePendulum)
    (s : State) (t : ℝ) : Option State :=
  if |den1 p s| < eps ∨ |den2 p s| < eps then none
  else some (derivatives p s t)

/-- `np.arange(start, stop, step)` over the reals: the
`⌈(stop - start)/step⌉` values `start, start + step, start + 2*step, …`,
all lying in `[start, stop)` when `step > 0`. -/
noncomputable def arange (start stop step : ℝ) : List ℝ :=
  (List.range (Int.ceil ((stop - start) / step)).toNat).map
    (fun k : ℕ => start + (k : ℝ) * step)

/-- `scipy.integrate.odeint(func, y0, t)`, modelled from the spec: an
external library routine, abstracted by a function `integ` that produces,
from the derivative function and the initial state, the integrated state at
a given time; `odeint` evaluates it at each requested sample time ("each
returned sample is the state at that exact time"). -/
def odeint (integ : (State → ℝ → State) → State → ℝ → State)
    (func : State → ℝ → State) (y0 : State) (t : List ℝ) : List State :=
  t.map (integ func y0)

/-- `DoublePendulum.solve(initial_state, t_span, dt)`: builds the sample
grid `np.arange(0, t_span, dt)` and integrates the derivative function over
it, returning the pair `(t, solution)`.  Parametrised by the abstract
integrator `integ` standing for the library solver. -/
noncomputable def solve (integ : (State → ℝ → State) → State → ℝ → State)
    (p : DoublePendulum) (initialState : State) (tSpan dt : ℝ) :
    List ℝ × List State :=
  let t := arange 0 tSpan dt
  (t, odeint integ (derivatives p) initialState t)

/-- Modelled from the spec: the one property of the exact solution used by
the fixed-point claim — an integrator faithful to "each returned sample is
the state at that exact time" maps an equilibrium state (one where the
derivative field vanishes identically) to itself at every time. -/
def EquilibriumFaithful
    (integ : (State → ℝ → State) → State → ℝ → State) : Prop :=
  ∀ f y0, (∀ t, f y0 t = ((0 : ℝ), 0, 0, 0)) → ∀ t, integ f y0 t = y0

/-- The Cartesian projection performed in `create_animation`:
`x1 = L1*sin(theta1)`, `y1 = -L1*cos(theta1)`, `x2 = x1 + L2*sin(theta2)`,
`y2 = y1 - L2*cos(theta2)`. -/
noncomputable def toCartesian (p : DoublePendulum) (s : State) :
    ℝ × ℝ × ℝ × ℝ :=
  let x1 := p.L1 * Real.sin s.1
  let y1 := -p.L1 * Real.cos s.1
  let x2 := x1 + p.L2 * Real.sin s.2.2.1
  let y2 := y1 - p.L2 * Real.cos s.2.2.1
  (x1, y1, x2, y2)

/-- The constant integrator, used as a concrete instance of the abstract
library solver in witnesses. -/
def constInteg : (State → ℝ → State) → State → ℝ → State :=
  fun _ y0 _ => y0

/-- The numerator of `domega1_dt` in `DoublePendulum.derivatives`. -/
noncomputable def num1 (p : DoublePendulum) (s : State) : ℝ :=
  p.m2 * p.L1 * s.2.1 * s.2.1 * Real.sin (s.2.2.1 - s.1) *
      Real.cos (s.2.2.1 - s.1)
    + p.m2 * p.g * Real.sin s.2.2.1 * Real.cos (s.2.2.1 - s.1)
    + p.m2 * p.L2 * s.2.2.2 * s.2.2.2 * Real.sin (s.2.2.1 - s.1)
    - (p.m1 + p.m2) * p.g * Real.sin s.1

/-- The numerator of `domega2_dt` in `DoublePendulum.derivatives`. -/
noncomputable def num2 (p : DoublePendulum) (s : State) : ℝ :=
  -p.m2 * p.L2 * s.2.2.2 * s.2.2.2 * Real.sin (s.2.2.1 - s.1) *
      Real.cos (s.2.2.1 - s.1)
    + (p.m1 + p.m2) * p.g * Real.sin s.1 * Real.cos (s.2.2.1 - s.1)
    - (p.m1 + p.m2) * p.L1 * s.2.1 * s.2.1 * Real.sin (s.2.2.1 - s.1)
    - (p.m1 + p.m2) * p.g * Real.sin s.2.2.1

/-- C1: for every state and every parameter set with `L1, L2, m1, m2, g`
strictly positive, the derivative computed by `DoublePendulum.derivatives`
equals exactly the field equations of the specification. -/
theorem derivatives_match_spec (p : DoublePendulum) (s : State) (t : ℝ)
    (hL1 : 0 < p.L1) (hL2 : 0 < p.L2) (hm1 : 0 < p.m1) (hm2 : 0 < p.m2)
    (hg : 0 < p.g) :
    derivatives p s t = derivativesSpec p s := by
  simp only [derivatives, derivativesSpec, den1, den2, Prod.mk.injEq]
  refine ⟨trivial, ?_, trivial, ?_⟩ <;> ring

/-- Witness for C1 at `L1 = L2 = m1 = m2 = 1`, `g = 981/100`, the zero state
and time `0`. -/
theorem derivatives_match_spec_witness :
    derivatives ⟨1, 1, 1, 1, 981 / 100⟩ ((0 : ℝ), 0, 0, 0) 0 =
      derivativesSpec ⟨1, 1, 1, 1, 981 / 100⟩ ((0 : ℝ), 0, 0, 0) :=
  derivatives_match_spec ⟨1, 1, 1, 1, 981 / 100⟩ ((0 : ℝ), 0, 0, 0) 0
    (by norm_num) (by norm_num) (by norm_num) (by norm_num) (by norm_num)

/-- C2 counterexample: constructing with `L1 = 0` (and all other parameters
positive) does not fail — the source constructor returns a model storing
`L1 = 0` verbatim — whereas the spec-modelled checked constructor rejects
these parameters. -/
theorem init_accepts_invalid :
    DoublePendulum.init 0 1 1 1 (981 / 100) = ⟨0, 1, 1, 1, 981 / 100⟩ ∧
    initSpec 0 1 1 1 (981 / 100) = none := by
  refine ⟨rfl, ?_⟩
  simp [initSpec]

/-- C2 amended: `DoublePendulum.__init__` performs no parameter validation —
for every real values of the five parameters, including non-positive ones,
construction succeeds and stores the parameters verbatim. -/
theorem init_always_stores (L1 L2 m1 m2 g : ℝ) :
    DoublePendulum.init L1 L2 m1 m2 g = ⟨L1, L2, m1, m2, g⟩ := rfl

/-- C3 counterexample: at `L1 = L2 = 1`, `m1 = 0`, `m2 = 1`, `g = 1` and the
zero state, `den1` is exactly `0`, so any positive epsilon threshold is
undershot and the spec-modelled checked derivative aborts with `none`; yet
the source `derivatives` returns a plain value — no instability condition is
surfaced and the step is not aborted. -/
theorem derivatives_no_instability_check :
    den1 ⟨1, 1, 0, 1, 1⟩ ((0 : ℝ), 0, 0, 0) = 0 ∧
    derivativesChecked (1 / 1000000) ⟨1, 1, 0, 1, 1⟩ ((0 : ℝ), 0, 0, 0) 0 =
      none ∧
    derivatives ⟨1, 1, 0, 1, 1⟩ ((0 : ℝ), 0, 0, 0) 0 = ((0 : ℝ), 0, 0, 0) := by
  have hden : den1 ⟨1, 1, 0, 1, 1⟩ ((0 : ℝ), 0, 0, 0) = 0 := by
    norm_num [den1]
  refine ⟨hden, ?_, ?_⟩
  · rw [derivativesChecked, if_pos]
    left
    rw [hden]
    norm_num
  · simp [derivatives, den1, den2]

/-- C3 amended: `derivatives` contains no denominator-magnitude guard — even
on inputs where `|den1|` lies below any epsilon, it performs the divisions
unconditionally and returns the resulting 4-tuple, with no error condition
surfaced to the caller. -/
theorem derivatives_unconditional_division (eps : ℝ) (p : DoublePendulum)
    (s : State) (t : ℝ) (h : |den1 p s| < eps) :
    derivatives p s t =
      (s.2.1, num1 p s / den1 p s, s.2.2.2, num2 p s / den2 p s) := rfl

/-- Witness for C3 amended at the counterexample input and `eps = 1`. -/
theorem derivatives_unconditional_division_witness :
    |den1 ⟨1, 1, 0, 1, 1⟩ ((0 : ℝ), 0, 0, 0)| < 1 ∧
    derivatives ⟨1, 1, 0, 1, 1⟩ ((0 : ℝ), 0, 0, 0) 0 =
      ((0 : ℝ),
       num1 ⟨1, 1, 0, 1, 1⟩ ((0 : ℝ), 0, 0, 0) /
         den1 ⟨1, 1, 0, 1, 1⟩ ((0 : ℝ), 0, 0, 0),
       0,
       num2 ⟨1, 1, 0, 1, 1⟩ ((0 : ℝ), 0, 0, 0) /
         den2 ⟨1, 1, 0, 1, 1⟩ ((0 : ℝ), 0, 0, 0)) :=
  ⟨by norm_num [den1],
   derivatives_unconditional_division 1 ⟨1, 1, 0, 1, 1⟩ ((0 : ℝ), 0, 0, 0) 0
     (by norm_num [den1])⟩

/-- C4: the time argument of `derivatives` has no effect on the result; the
function is a pure function of the stored parameters and the input state. -/
theorem derivatives_time_invariant (p : DoublePendulum) (s : State)
    (t1 t2 : ℝ) : derivatives p s t1 = derivatives p s t2 := rfl

/-- C7: the Cartesian projection computes `x1 = L1*sin(theta1)`,
`y1 = -L1*cos(theta1)`, `x2 = x1 + L2*sin(theta2)`, `y2 = y1 - L2*cos(theta2)`
for every state and parameters, and at `theta1 = theta2 = 0`, `L1 = L2 = 1`
it returns `(0, -1, 0, -2)`. -/
theorem toCartesian_formula :
    (∀ (p : DoublePendulum) (s : State),
      toCartesian p s =
        (p.L1 * Real.sin s.1, -p.L1 * Real.cos s.1,
         p.L1 * Real.sin s.1 + p.L2 * Real.sin s.2.2.1,
         -p.L1 * Real.cos s.1 - p.L2 * Real.cos s.2.2.1)) ∧
    toCartesian ⟨1, 1, 1, 1, 981 / 100⟩ ((0 : ℝ), 0, 0, 0) =
      ((0 : ℝ), -1, 0, -2) := by
  constructor
  · intro p s
    rfl
  · simp [toCartesian]
    norm_num

/-- Membership in the sample grid: `x ∈ arange 0 T dt` exactly when `x` is a
multiple `k * dt` strictly below `T` (for positive step `dt`). -/
theorem mem_arange_iff (T dt x : ℝ) (hdt : 0 < dt) :
    x ∈ arange 0 T dt ↔ ∃ k : ℕ, x = k * dt ∧ x < T := by
  rw [arange, List.mem_map]
  constructor
  · rintro ⟨k, hk, rfl⟩
    rw [List.mem_range] at hk
    have h1 : (k : ℤ) < Int.ceil ((T - 0) / dt) := by
      rwa [Int.lt_toNat] at hk
    have h2 : ((k : ℤ) : ℝ) < (T - 0) / dt := Int.lt_ceil.mp h1
    have h2' : (k : ℝ) < (T - 0) / dt := by exact_mod_cast h2
    have h3 := (lt_div_iff₀ hdt).mp h2'
    exact ⟨k, by ring, by linarith⟩
  · rintro ⟨k, rfl, hx⟩
    refine ⟨k, ?_, by ring⟩
    rw [List.mem_range, Int.lt_toNat, Int.lt_ceil]
    push_cast
    rw [lt_div_iff₀ hdt]
    linarith

/-- The sample grid starts at time `0` when `T` and `dt` are positive. -/
theorem arange_head (T dt : ℝ) (hT : 0 < T) (hdt : 0 < dt) :
    (arange 0 T dt).head? = some 0 := by
  unfold arange
  have hpos : 0 < (Int.ceil ((T - 0) / dt)).toNat := by
    rw [Int.lt_toNat]
    exact_mod_cast Int.ceil_pos.mpr (div_pos (by linarith) hdt)
  obtain ⟨m, hm⟩ := Nat.exists_eq_succ_of_ne_zero (Nat.pos_iff_ne_zero.mp hpos)
  rw [hm, List.range_succ_eq_map]
  simp

/-- The sample grid is strictly increasing for positive step `dt`. -/
theorem arange_pairwise (T dt : ℝ) (hdt : 0 < dt) :
    (arange 0 T dt).Pairwise (· < ·) := by
  unfold arange
  refine List.Pairwise.map _ ?_ (List.pairwise_lt_range _)
  intro a b hab
  have hcast : (a : ℝ) < (b : ℝ) := by exact_mod_cast hab
  have := mul_lt_mul_of_pos_right hcast hdt
  simpa using this

/-- The `k`-th entry of the sample grid is `k * dt`. -/
theorem arange_get (T dt : ℝ) (k : ℕ) (hk : k < (arange 0 T dt).length) :
    (arange 0 T dt).get ⟨k, hk⟩ = k * dt := by
  unfold arange at hk ⊢
  simp [List.get_eq_getElem, List.getElem_map, List.getElem_range]

/-- C5: `solve` produces the uniform sample grid `0, dt, 2*dt, …` up to
`tSpan` — strictly increasing, starting at `0`, with the `k`-th sample time
equal to `k * dt` — and a state sequence of the same length whose `k`-th
entry is the integrated state at time `k * dt`; `solve` is a pure function
of its arguments, hence stateless across invocations. -/
theorem solve_uniform_grid (integ : (State → ℝ → State) → State → ℝ → State)
    (p : DoublePendulum) (y0 : State) (tSpan dt : ℝ)
    (hT : 0 < tSpan) (hdt : 0 < dt) :
    (solve integ p y0 tSpan dt).1.Pairwise (· < ·) ∧
    (solve integ p y0 tSpan dt).1.head? = some 0 ∧
    (∀ x ∈ (solve integ p y0 tSpan dt).1, x < tSpan) ∧
    (∀ (k : ℕ) (hk : k < (solve integ p y0 tSpan dt).1.length),
      (solve integ p y0 tSpan dt).1.get ⟨k, hk⟩ = k * dt) ∧
    (solve integ p y0 tSpan dt).2.length =
      (solve integ p y0 tSpan dt).1.length ∧
    (∀ (k : ℕ) (hk : k < (solve integ p y0 tSpan dt).2.length),
      (solve integ p y0 tSpan dt).2.get ⟨k, hk⟩ =
        integ (derivatives p) y0 (k * dt)) := by
  refine ⟨arange_pairwise tSpan dt hdt, arange_head tSpan dt hT hdt, ?_, ?_,
    ?_, ?_⟩
  · intro x hx
    exact ((mem_arange_iff tSpan dt x hdt).mp hx).choose_spec.2
  · intro k hk
    exact arange_get tSpan dt k hk
  · simp [solve, odeint]
  · intro k hk
    have hk' : k < (arange 0 tSpan dt).length := by
      simpa [solve, odeint] using hk
    show ((arange 0 tSpan dt).map (integ (derivatives p) y0)).get ⟨k, hk⟩ =
      integ (derivatives p) y0 (k * dt)
    rw [List.get_eq_getElem, List.getElem_map]
    rw [show (arange 0 tSpan dt)[k] = (arange 0 tSpan dt).get ⟨k, hk'⟩ from rfl]
    rw [arange_get tSpan dt k hk']

/-- Witness for C5 with the constant integrator, unit parameters,
`tSpan = 1`, `dt = 1/2`. -/
theorem solve_uniform_grid_witness :
    (solve constInteg ⟨1, 1, 1, 1, 981 / 100⟩ ((0 : ℝ), 0, 0, 0) 1
        (1 / 2)).1.Pairwise (· < ·) ∧
    (solve constInteg ⟨1, 1, 1, 1, 981 / 100⟩ ((0 : ℝ), 0, 0, 0) 1
        (1 / 2)).1.head? = some 0 ∧
    (∀ x ∈ (solve constInteg ⟨1, 1, 1, 1, 981 / 100⟩ ((0 : ℝ), 0, 0, 0) 1
        (1 / 2)).1, x < 1) ∧
    (∀ (k : ℕ) (hk : k < (solve constInteg ⟨1, 1, 1, 1, 981 / 100⟩
        ((0 : ℝ), 0, 0, 0) 1 (1 / 2)).1.length),
      (solve constInteg ⟨1, 1, 1, 1, 981 / 100⟩ ((0 : ℝ), 0, 0, 0) 1
        (1 / 2)).1.get ⟨k, hk⟩ = k * (1 / 2)) ∧
    (solve constInteg ⟨1, 1, 1, 1, 981 / 100⟩ ((0 : ℝ), 0, 0, 0) 1
        (1 / 2)).2.length =
      (solve constInteg ⟨1, 1, 1, 1, 981 / 100⟩ ((0 : ℝ), 0, 0, 0) 1
        (1 / 2)).1.length ∧
    (∀ (k : ℕ) (hk : k < (solve constInteg ⟨1, 1, 1, 1, 981 / 100⟩
        ((0 : ℝ), 0, 0, 0) 1 (1 / 2)).2.length),
      (solve constInteg ⟨1, 1, 1, 1, 981 / 100⟩ ((0 : ℝ), 0, 0, 0) 1
        (1 / 2)).2.get ⟨k, hk⟩ =
        constInteg (derivatives ⟨1, 1, 1, 1, 981 / 100⟩) ((0 : ℝ), 0, 0, 0)
          (k * (1 / 2))) :=
  solve_uniform_grid constInteg ⟨1, 1, 1, 1, 981 / 100⟩ ((0 : ℝ), 0, 0, 0) 1
    (1 / 2) (by norm_num) (by norm_num)

/-- C6: the downward equilibrium `(0,0,0,0)` is a fixed point — the
derivative there vanishes for every valid parameter set and every time, and
for every integrator faithful to the exact-solution contract, `solve`
started from the equilibrium returns the initial state at every sample. -/
theorem equilibrium_fixed_point (p : DoublePendulum) (t : ℝ)
    (hL1 : 0 < p.L1) (hL2 : 0 < p.L2) (hm1 : 0 < p.m1) (hm2 : 0 < p.m2)
    (hg : 0 < p.g) :
    derivatives p ((0 : ℝ), 0, 0, 0) t = ((0 : ℝ), 0, 0, 0) ∧
    ∀ integ, EquilibriumFaithful integ → ∀ tSpan dt : ℝ,
      ∀ s ∈ (solve integ p ((0 : ℝ), 0, 0, 0) tSpan dt).2,
        s = ((0 : ℝ), 0, 0, 0) := by
  have hfix : ∀ t' : ℝ,
      derivatives p ((0 : ℝ), 0, 0, 0) t' = ((0 : ℝ), 0, 0, 0) := by
    intro t'
    simp [derivatives, den1, den2]
  refine ⟨hfix t, ?_⟩
  intro integ hinteg tSpan dt s hs
  simp only [solve, odeint, List.mem_map] at hs
  rcases hs with ⟨x, _, rfl⟩
  exact hinteg (derivatives p) ((0 : ℝ), 0, 0, 0) hfix x

/-- Witness for C6 at unit parameters, `g = 981/100`, time `0`. -/
theorem equilibrium_fixed_point_witness :
    derivatives ⟨1, 1, 1, 1, 981 / 100⟩ ((0 : ℝ), 0, 0, 0) 0 =
      ((0 : ℝ), 0, 0, 0) :=
  (equilibrium_fixed_point ⟨1, 1, 1, 1, 981 / 100⟩ 0 (by norm_num)
    (by norm_num) (by norm_num) (by norm_num) (by norm_num)).1

/-- C8: `solve` is deterministic — for a fixed integrator, fixed parameters,
fixed initial state, fixed time span and fixed step, two invocations produce
identical `(times, states)` output, `solve` being a pure function of exactly
these arguments. -/
theorem solve_deterministic
    (integ : (State → ℝ → State) → State → ℝ → State) (p : DoublePendulum)
    (y0 : State) (tSpan dt : ℝ) :
    solve integ p y0 tSpan dt = solve integ p y0 tSpan dt := rfl

/-- C10: endpoint convention of the sample grid — the times returned by
`solve` are exactly the multiples `k * dt` strictly below `tSpan`; the first
sample time is `0` and `tSpan` itself is never a sample time. -/
theorem solve_times_endpoints
    (integ : (State → ℝ → State) → State → ℝ → State) (p : DoublePendulum)
    (y0 : State) (tSpan dt : ℝ) (hT : 0 < tSpan) (hdt : 0 < dt) :
    (∀ x, x ∈ (solve integ p y0 tSpan dt).1 ↔
      ∃ k : ℕ, x = k * dt ∧ x < tSpan) ∧
    (solve integ p y0 tSpan dt).1.head? = some 0 ∧
    tSpan ∉ (solve integ p y0 tSpan dt).1 := by
  refine ⟨fun x => mem_arange_iff tSpan dt x hdt, arange_head tSpan dt hT hdt,
    ?_⟩
  intro hmem
  rcases (mem_arange_iff tSpan dt tSpan hdt).mp hmem with ⟨k, _, hlt⟩
  exact lt_irrefl tSpan hlt

/-- Witness for C10 with the constant integrator, unit parameters,
`tSpan = 1`, `dt = 1/2`. -/
theorem solve_times_endpoints_witness :
    (∀ x, x ∈ (solve constInteg ⟨1, 1, 1, 1, 981 / 100⟩ ((0 : ℝ), 0, 0, 0) 1
        (1 / 2)).1 ↔ ∃ k : ℕ, x = k * (1 / 2) ∧ x < 1) ∧
    (solve constInteg ⟨1, 1, 1, 1, 981 / 100⟩ ((0 : ℝ), 0, 0, 0) 1
        (1 / 2)).1.head? = some 0 ∧
    (1 : ℝ) ∉ (solve constInteg ⟨1, 1, 1, 1, 981 / 100⟩ ((0 : ℝ), 0, 0, 0) 1
        (1 / 2)).1 :=
  solve_times_endpoints constInteg ⟨1, 1, 1, 1, 981 / 100⟩ ((0 : ℝ), 0, 0, 0)
    1 (1 / 2) (by norm_num) (by norm_num)

/-- C9: rod-length invariant of the Cartesian projection — bob 1 lies at
distance `L1` from the pivot and bob 2 at distance `L2` from bob 1, for
every state and every `L1, L2`. -/
theorem toCartesian_rod_lengths (p : DoublePendulum) (s : State) :
    (toCartesian p s).1 ^ 2 + (toCartesian p s).2.1 ^ 2 = p.L1 ^ 2 ∧
    ((toCartesian p s).2.2.1 - (toCartesian p s).1) ^ 2 +
      ((toCartesian p s).2.2.2 - (toCartesian p s).2.1) ^ 2 = p.L2 ^ 2 := by
  constructor
  · simp only [toCartesian]
    linear_combination p.L1 ^ 2 * Real.sin_sq_add_cos_sq s.1
  · simp only [toCartesian]
    linear_combination p.L2 ^ 2 * Real.sin_sq_add_cos_sq s.2.2.1

end DoublePendulumSim
